import Mathlib

/-!
Verification of `customtwitter.py`: a shallow embedding of the `APIX`
client class and its seven endpoint methods.  Each method is modelled as a
pure function from the client state and the method's arguments to the
post-call client state paired with either the single GET request the
method issues (`requests.get(url, headers, params)` is modelled by the
`Request` value returned) or the `ValueError` it raises (the spec's
`InvalidArgument`).  Python dicts built by inserting distinct fresh keys
are modelled as association lists in insertion order.
-/

/-- Test for the ASCII whitespace characters stripped by Python's `int`
before parsing (the model is restricted to ASCII input; CPython also
strips non-ASCII Unicode whitespace). -/
def pyIsSpace (ch : Char) : Bool :=
  ch = ' ' || ch = '\t' || ch = '\n' || ch = '\x0d' || ch = '\x0b' || ch = '\x0c'

/-- Strip leading and trailing whitespace, as Python's `int` does to its
string argument. -/
def pyStrip (l : List Char) : List Char :=
  ((l.dropWhile pyIsSpace).reverse.dropWhile pyIsSpace).reverse

/-- Continue parsing a digit run in which a single underscore may appear
between two digits (Python's digit-group separator), accumulating the
value; `none` on a trailing underscore, a doubled underscore, or any
non-digit. -/
def pyDigitsAux : Nat → List Char → Option Nat
  | acc, [] => some acc
  | _, ['_'] => none
  | acc, '_' :: ch :: rest =>
      if ch.isDigit then pyDigitsAux (acc * 10 + (ch.toNat - 48)) rest else none
  | acc, ch :: rest =>
      if ch.isDigit then pyDigitsAux (acc * 10 + (ch.toNat - 48)) rest else none

/-- Parse a nonempty digit run (starting with a digit, underscores only
between digits), as Python's `int` accepts after the optional sign. -/
def pyDigitSeq : List Char → Option Nat
  | [] => none
  | ch :: rest =>
      if ch.isDigit then pyDigitsAux (ch.toNat - 48) rest else none

/-- Parse an optional sign followed by a digit run. -/
def pyIntCore : List Char → Option Int
  | '+' :: rest => (pyDigitSeq rest).map Int.ofNat
  | '-' :: rest => (pyDigitSeq rest).map (fun n => -(Int.ofNat n : Int))
  | l => (pyDigitSeq l).map Int.ofNat

/-- Model of Python's `int(s)` on a string argument, restricted to ASCII:
strip whitespace, then an optional `+`/`-` sign followed by decimal digits
with optional single underscores between digits; `none` models the
`ValueError` raised on anything else (e.g. `""` or `"3.0"`). -/
def pyInt (s : String) : Option Int :=
  pyIntCore (pyStrip s.data)

/-- Model of the `ValueError` exceptions raised by the client's methods
(the spec's `InvalidArgument`), carrying the message of the source. -/
inductive APIError where
  | invalidArgument (msg : String)
deriving DecidableEq, Repr

/-- Observable content of the one `requests.get` call a successful method
performs: the URL and the `headers` and `params` dicts passed to it. -/
structure Request where
  url : String
  headers : List (String × String)
  params : List (String × String)
deriving DecidableEq, Repr

/-- State of an `APIX` instance: the four attributes `key`, `host`,
`APIheaders` and `params`.  In Python `params` is unassigned until the
first method call; it is modelled as initially `[]`, and no method reads
it before overwriting it. -/
structure Client where
  key : String
  host : String
  APIheaders : List (String × String)
  params : List (String × String)
deriving DecidableEq, Repr

/-- Default value of the constructor's `host` parameter. -/
def defaultHost : String := "twitter-api45.p.rapidapi.com"

/-- Model of `APIX.__init__`: stores `key` and `host` and builds
`APIheaders` by inserting the key and host under the two RapidAPI header
names. -/
def APIX.init (key : String) (host : String) : Client :=
  { key := key
    host := host
    APIheaders := [("X-RapidAPI-Key", key), ("X-RapidAPI-Host", host)]
    params := [] }

/-- Model of `APIX.getLatestReplies`: validates `id` with `int`, then
overwrites `params` with `{"id": id}` and issues the GET request against
the hard-coded URL of the source. -/
def APIX.getLatestReplies (c : Client) (id : String) :
    Client × Except APIError Request :=
  match pyInt id with
  | none => (c, Except.error (APIError.invalidArgument "Invalid Tweet ID"))
  | some _ =>
    let c := { c with params := [("id", id)] }
    (c, Except.ok
      { url := "https://twitter-api45.p.rapidapi.com/latest_replies.php"
        headers := c.APIheaders
        params := c.params })

/-- Model of `APIX.getRetweets`: same validation and parameters as
`getLatestReplies`, against the `retweets.php` URL. -/
def APIX.getRetweets (c : Client) (id : String) :
    Client × Except APIError Request :=
  match pyInt id with
  | none => (c, Except.error (APIError.invalidArgument "Invalid Tweet ID"))
  | some _ =>
    let c := { c with params := [("id", id)] }
    (c, Except.ok
      { url := "https://twitter-api45.p.rapidapi.com/retweets.php"
        headers := c.APIheaders
        params := c.params })

/-- Model of Python's `str.upper` restricted to ASCII: upper-case each
character (non-ASCII characters are left unchanged by the model). -/
def pyUpper (s : String) : String :=
  String.mk (s.data.map Char.toUpper)

/-- Search types recognized by `searchTweet` (the source's local set
`types`). -/
def searchTypes : List String := ["TOP", "LATEST", "MEDIA", "PEOPLE", "LISTS"]

/-- Message of the `ValueError` raised by `searchTweet`. -/
def searchTypeErr : String :=
  "Invalid search_type. The search_type does not belong to [TOP, LATEST, MEDIA, PEOPLE, LISTS] "

/-- Model of `APIX.searchTweet`: upper-cases `search_type`, rejects it
when it is neither a recognized type nor empty, then overwrites `params`
with `query`, the optional `search_types`, and the optional `cursor`. -/
def APIX.searchTweet (c : Client) (keyword : String) (search_type : String)
    (cursor : Option String) : Client × Except APIError Request :=
  let search_type := pyUpper search_type
  if search_type ∉ searchTypes ∧ search_type ≠ "" then
    (c, Except.error (APIError.invalidArgument searchTypeErr))
  else
    let ps := [("query", keyword)]
      ++ (if search_type ∈ searchTypes then [("search_types", search_type)] else [])
      ++ (match cursor with
          | some cur => [("cursor", cur)]
          | none => [])
    let c := { c with params := ps }
    (c, Except.ok
      { url := "https://twitter-api45.p.rapidapi.com/search.php"
        headers := c.APIheaders
        params := c.params })

/-- Model of `APIX.getTweetInfo`: validates `id` with `int`, then issues
the GET request against the `tweet.php` URL with `params = {"id": id}`. -/
def APIX.getTweetInfo (c : Client) (id : String) :
    Client × Except APIError Request :=
  match pyInt id with
  | none => (c, Except.error (APIError.invalidArgument "Invalid Tweet ID"))
  | some _ =>
    let c := { c with params := [("id", id)] }
    (c, Except.ok
      { url := "https://twitter-api45.p.rapidapi.com/tweet.php"
        headers := c.APIheaders
        params := c.params })

/-- Model of `APIX.getTweetThread`: validates `id` with `int`, overwrites
`params` with `id` and the optional `cursor`, and issues the GET request
against the `tweet_thread.php` URL. -/
def APIX.getTweetThread (c : Client) (id : String) (cursor : Option String) :
    Client × Except APIError Request :=
  match pyInt id with
  | none => (c, Except.error (APIError.invalidArgument "Invalid Tweet ID"))
  | some _ =>
    let ps := [("id", id)]
      ++ (match cursor with
          | some cur => [("cursor", cur)]
          | none => [])
    let c := { c with params := ps }
    (c, Except.ok
      { url := "https://twitter-api45.p.rapidapi.com/tweet_thread.php"
        headers := c.APIheaders
        params := c.params })

/-- Model of `APIX.getUserInfo` (no validation, cannot raise): overwrites
`params` with `screenname` and the optional `rest_id`, issuing the GET
request against the `screenname.php` URL. -/
def APIX.getUserInfo (c : Client) (screenname : String)
    (twitter_id : Option String) : Client × Request :=
  let ps := [("screenname", screenname)]
    ++ (match twitter_id with
        | some t => [("rest_id", t)]
        | none => [])
  let c := { c with params := ps }
  (c, { url := "https://twitter-api45.p.rapidapi.com/screenname.php"
        headers := c.APIheaders
        params := c.params })

/-- Model of `APIX.getUserTimeline` (no validation, cannot raise):
overwrites `params` with `screenname`, the optional `rest_id` and the
optional `cursor`, issuing the GET request against the `timeline.php`
URL. -/
def APIX.getUserTimeline (c : Client) (screenname : String)
    (twitter_id : Option String) (cursor : Option String) : Client × Request :=
  let ps := [("screenname", screenname)]
    ++ (match twitter_id with
        | some t => [("rest_id", t)]
        | none => [])
    ++ (match cursor with
        | some cur => [("cursor", cur)]
        | none => [])
  let c := { c with params := ps }
  (c, { url := "https://twitter-api45.p.rapidapi.com/timeline.php"
        headers := c.APIheaders
        params := c.params })

/-- True exactly when a method's outcome is a raised error rather than an
issued request. -/
def isErr : Except APIError Request → Bool
  | Except.error _ => true
  | Except.ok _ => false

deriving instance DecidableEq for Except

/-- Configuration equality of two client states: the `key`, `host` and
`APIheaders` attributes agree (the `params` scratch field may differ). -/
def configEq (a b : Client) : Prop :=
  a.key = b.key ∧ a.host = b.host ∧ a.APIheaders = b.APIheaders

/-- C1, counterexample: a client constructed with the custom host
`example.com` still issues its GET requests against the hard-coded
authority `twitter-api45.p.rapidapi.com`; the request URL is not
`https://example.com/<endpoint>.php`, so host substitution into the URL
does not happen. -/
theorem C1_counterexample :
    ((APIX.getLatestReplies (APIX.init "k" "example.com") "1").2 = Except.ok
      { url := "https://twitter-api45.p.rapidapi.com/latest_replies.php"
        headers := [("X-RapidAPI-Key", "k"), ("X-RapidAPI-Host", "example.com")]
        params := [("id", "1")] }) ∧
    ((APIX.getUserInfo (APIX.init "k" "example.com") "alice" none).2.url ≠
      "https://example.com/screenname.php") := by
  decide

/-- C1, amended: for every client state, every one of the seven operations
issues its GET request against the fixed URL
`https://twitter-api45.p.rapidapi.com/<endpoint>.php` with its fixed
endpoint name (`latest_replies`, `retweets`, `search`, `tweet`,
`tweet_thread`, `screenname`, `timeline`), regardless of the configured
host: the URL authority is the hard-coded default host for every
operation. -/
theorem C1_fixed_url :
    ∀ (c : Client) (id keyword st s : String) (cur tid : Option String),
      (∀ r, (APIX.getLatestReplies c id).2 = Except.ok r →
        r.url = "https://twitter-api45.p.rapidapi.com/latest_replies.php") ∧
      (∀ r, (APIX.getRetweets c id).2 = Except.ok r →
        r.url = "https://twitter-api45.p.rapidapi.com/retweets.php") ∧
      (∀ r, (APIX.searchTweet c keyword st cur).2 = Except.ok r →
        r.url = "https://twitter-api45.p.rapidapi.com/search.php") ∧
      (∀ r, (APIX.getTweetInfo c id).2 = Except.ok r →
        r.url = "https://twitter-api45.p.rapidapi.com/tweet.php") ∧
      (∀ r, (APIX.getTweetThread c id cur).2 = Except.ok r →
        r.url = "https://twitter-api45.p.rapidapi.com/tweet_thread.php") ∧
      ((APIX.getUserInfo c s tid).2.url =
        "https://twitter-api45.p.rapidapi.com/screenname.php") ∧
      ((APIX.getUserTimeline c s tid cur).2.url =
        "https://twitter-api45.p.rapidapi.com/timeline.php") := by
  intro c id keyword st s cur tid
  refine ⟨?_, ?_, ?_, ?_, ?_, ?_, ?_⟩
  · intro r h
    unfold APIX.getLatestReplies at h
    cases hp : pyInt id <;> rw [hp] at h <;> simp at h
    subst h
    rfl
  · intro r h
    unfold APIX.getRetweets at h
    cases hp : pyInt id <;> rw [hp] at h <;> simp at h
    subst h
    rfl
  · intro r h
    unfold APIX.searchTweet at h
    by_cases hc : pyUpper st ∉ searchTypes ∧ pyUpper st ≠ ""
    · rw [if_pos hc] at h
      simp at h
    · rw [if_neg hc] at h
      simp at h
      subst h
      rfl
  · intro r h
    unfold APIX.getTweetInfo at h
    cases hp : pyInt id <;> rw [hp] at h <;> simp at h
    subst h
    rfl
  · intro r h
    unfold APIX.getTweetThread at h
    cases hp : pyInt id <;> rw [hp] at h <;> simp at h
    subst h
    rfl
  · simp [APIX.getUserInfo]
  · simp [APIX.getUserTimeline]

/-- C2: an operation raises `InvalidArgument` (the source's `ValueError`)
if and only if its required `id` string does not parse under Python's
`int` (`getLatestReplies`, `getRetweets`, `getTweetInfo`,
`getTweetThread`), or, for `searchTweet`, the upper-cased `search_type`
is non-empty and not one of `TOP`, `LATEST`, `MEDIA`, `PEOPLE`, `LISTS`;
in every failing case the outcome is the error alone, so no GET request
is issued. -/
theorem C2_invalid_iff :
    ∀ (c : Client) (id keyword st : String) (cur : Option String),
      ((APIX.getLatestReplies c id).2 =
          Except.error (APIError.invalidArgument "Invalid Tweet ID") ↔ pyInt id = none) ∧
      ((APIX.getRetweets c id).2 =
          Except.error (APIError.invalidArgument "Invalid Tweet ID") ↔ pyInt id = none) ∧
      ((APIX.getTweetInfo c id).2 =
          Except.error (APIError.invalidArgument "Invalid Tweet ID") ↔ pyInt id = none) ∧
      ((APIX.getTweetThread c id cur).2 =
          Except.error (APIError.invalidArgument "Invalid Tweet ID") ↔ pyInt id = none) ∧
      ((APIX.searchTweet c keyword st cur).2 =
          Except.error (APIError.invalidArgument searchTypeErr) ↔
        (pyUpper st ∉ searchTypes ∧ pyUpper st ≠ "")) := by
  intro c id keyword st cur
  refine ⟨?_, ?_, ?_, ?_, ?_⟩
  · unfold APIX.getLatestReplies
    cases hp : pyInt id <;> simp
  · unfold APIX.getRetweets
    cases hp : pyInt id <;> simp
  · unfold APIX.getTweetInfo
    cases hp : pyInt id <;> simp
  · unfold APIX.getTweetThread
    cases hp : pyInt id <;> simp
  · unfold APIX.searchTweet
    by_cases hc : pyUpper st ∉ searchTypes ∧ pyUpper st ≠ ""
    · rw [if_pos hc]
      simp [hc]
    · rw [if_neg hc]
      simp [hc]

/-- C3: for every `id` string that parses under Python's `int` (negative
and zero included), each of the four id-taking operations issues exactly
one GET request whose `id` query parameter is the original argument
string, and `getTweetThread` includes the `cursor` parameter exactly when
a cursor was supplied. -/
theorem C3_valid_id_request :
    ∀ (c : Client) (id : String) (n : Int) (cur : String), pyInt id = some n →
      ((APIX.getLatestReplies c id).2 = Except.ok
        { url := "https://twitter-api45.p.rapidapi.com/latest_replies.php"
          headers := c.APIheaders, params := [("id", id)] }) ∧
      ((APIX.getRetweets c id).2 = Except.ok
        { url := "https://twitter-api45.p.rapidapi.com/retweets.php"
          headers := c.APIheaders, params := [("id", id)] }) ∧
      ((APIX.getTweetInfo c id).2 = Except.ok
        { url := "https://twitter-api45.p.rapidapi.com/tweet.php"
          headers := c.APIheaders, params := [("id", id)] }) ∧
      ((APIX.getTweetThread c id none).2 = Except.ok
        { url := "https://twitter-api45.p.rapidapi.com/tweet_thread.php"
          headers := c.APIheaders, params := [("id", id)] }) ∧
      ((APIX.getTweetThread c id (some cur)).2 = Except.ok
        { url := "https://twitter-api45.p.rapidapi.com/tweet_thread.php"
          headers := c.APIheaders, params := [("id", id), ("cursor", cur)] }) := by
  intro c id n cur h
  refine ⟨?_, ?_, ?_, ?_, ?_⟩ <;>
    simp [APIX.getLatestReplies, APIX.getRetweets, APIX.getTweetInfo,
      APIX.getTweetThread, h]

/-- C3, witness: the negative id string `"-5"` parses, and
`getLatestReplies` sends it verbatim as the `id` parameter. -/
theorem C3_witness :
    (APIX.getLatestReplies (APIX.init "k" defaultHost) "-5").2 = Except.ok
      { url := "https://twitter-api45.p.rapidapi.com/latest_replies.php"
        headers := [("X-RapidAPI-Key", "k"), ("X-RapidAPI-Host", defaultHost)]
        params := [("id", "-5")] } :=
  (C3_valid_id_request (APIX.init "k" defaultHost) "-5" (-5) "cur" (by decide)).1

/-- C4: `searchTweet` upper-cases `search_type` before validating and
sending: `"latest"` is sent as `search_types=LATEST`; any `search_type`
whose upper-casing is non-empty and unrecognized (e.g. `"bogus"`) raises
`InvalidArgument`; and for `""` the `search_types` parameter is omitted
while `query=keyword` is still sent. -/
theorem C4_search_type_normalization :
    ∀ (c : Client) (keyword st : String) (cur : Option String),
      ((APIX.searchTweet c keyword "latest" none).2 = Except.ok
        { url := "https://twitter-api45.p.rapidapi.com/search.php"
          headers := c.APIheaders
          params := [("query", keyword), ("search_types", "LATEST")] }) ∧
      (pyUpper st ∉ searchTypes → pyUpper st ≠ "" →
        (APIX.searchTweet c keyword st cur).2 =
          Except.error (APIError.invalidArgument searchTypeErr)) ∧
      ((APIX.searchTweet c keyword "bogus" cur).2 =
        Except.error (APIError.invalidArgument searchTypeErr)) ∧
      ((APIX.searchTweet c keyword "" none).2 = Except.ok
        { url := "https://twitter-api45.p.rapidapi.com/search.php"
          headers := c.APIheaders
          params := [("query", keyword)] }) := by
  intro c keyword st cur
  refine ⟨?_, ?_, ?_, ?_⟩
  · unfold APIX.searchTweet
    rw [(by decide : pyUpper "latest" = "LATEST")]
    rw [if_neg (by decide), if_pos (by decide)]
    rfl
  · intro h1 h2
    unfold APIX.searchTweet
    rw [if_pos ⟨h1, h2⟩]
  · unfold APIX.searchTweet
    rw [(by decide : pyUpper "bogus" = "BOGUS")]
    rw [if_pos (by decide)]
  · unfold APIX.searchTweet
    rw [(by decide : pyUpper "" = "")]
    rw [if_neg (by decide), if_neg (by decide)]
    rfl

/-- C5: `getUserInfo` and `getUserTimeline` include the optional
`rest_id` and `cursor` parameters exactly when the corresponding
arguments are supplied, always sending `screenname`; all combinations of
supplied and omitted optionals are enumerated. -/
theorem C5_user_params :
    ∀ (c : Client) (s t cur : String),
      ((APIX.getUserInfo c s none).2.params = [("screenname", s)]) ∧
      ((APIX.getUserInfo c s (some t)).2.params = [("screenname", s), ("rest_id", t)]) ∧
      ((APIX.getUserTimeline c s none (some cur)).2.params =
        [("screenname", s), ("cursor", cur)]) ∧
      ((APIX.getUserTimeline c s none none).2.params = [("screenname", s)]) ∧
      ((APIX.getUserTimeline c s (some t) none).2.params =
        [("screenname", s), ("rest_id", t)]) ∧
      ((APIX.getUserTimeline c s (some t) (some cur)).2.params =
        [("screenname", s), ("rest_id", t), ("cursor", cur)]) := by
  intro c s t cur
  refine ⟨?_, ?_, ?_, ?_, ?_, ?_⟩ <;> simp [APIX.getUserInfo, APIX.getUserTimeline]

/-- C6: the constructor builds exactly the header mapping
`X-RapidAPI-Key ↦ key, X-RapidAPI-Host ↦ host`; every operation sends
exactly the client's stored header mapping, and every operation leaves
the client's `key`, `host` and `APIheaders` attributes unchanged. -/
theorem C6_headers_immutable :
    ∀ (k hostName : String) (c : Client) (id keyword st s : String) (cur tid : Option String),
      ((APIX.init k hostName).APIheaders =
        [("X-RapidAPI-Key", k), ("X-RapidAPI-Host", hostName)]) ∧
      (∀ r, (APIX.getLatestReplies c id).2 = Except.ok r → r.headers = c.APIheaders) ∧
      (∀ r, (APIX.getRetweets c id).2 = Except.ok r → r.headers = c.APIheaders) ∧
      (∀ r, (APIX.searchTweet c keyword st cur).2 = Except.ok r → r.headers = c.APIheaders) ∧
      (∀ r, (APIX.getTweetInfo c id).2 = Except.ok r → r.headers = c.APIheaders) ∧
      (∀ r, (APIX.getTweetThread c id cur).2 = Except.ok r → r.headers = c.APIheaders) ∧
      ((APIX.getUserInfo c s tid).2.headers = c.APIheaders) ∧
      ((APIX.getUserTimeline c s tid cur).2.headers = c.APIheaders) ∧
      configEq ((APIX.getLatestReplies c id).1) c ∧
      configEq ((APIX.getRetweets c id).1) c ∧
      configEq ((APIX.searchTweet c keyword st cur).1) c ∧
      configEq ((APIX.getTweetInfo c id).1) c ∧
      configEq ((APIX.getTweetThread c id cur).1) c ∧
      configEq ((APIX.getUserInfo c s tid).1) c ∧
      configEq ((APIX.getUserTimeline c s tid cur).1) c := by
  intro k hostName c id keyword st s cur tid
  refine ⟨rfl, ?_, ?_, ?_, ?_, ?_, ?_, ?_, ?_, ?_, ?_, ?_, ?_, ?_, ?_⟩
  · intro r h
    unfold APIX.getLatestReplies at h
    cases hp : pyInt id <;> rw [hp] at h <;> simp at h
    subst h
    rfl
  · intro r h
    unfold APIX.getRetweets at h
    cases hp : pyInt id <;> rw [hp] at h <;> simp at h
    subst h
    rfl
  · intro r h
    unfold APIX.searchTweet at h
    by_cases hc : pyUpper st ∉ searchTypes ∧ pyUpper st ≠ ""
    · rw [if_pos hc] at h
      simp at h
    · rw [if_neg hc] at h
      simp at h
      subst h
      rfl
  · intro r h
    unfold APIX.getTweetInfo at h
    cases hp : pyInt id <;> rw [hp] at h <;> simp at h
    subst h
    rfl
  · intro r h
    unfold APIX.getTweetThread at h
    cases hp : pyInt id <;> rw [hp] at h <;> simp at h
    subst h
    rfl
  · simp [APIX.getUserInfo]
  · simp [APIX.getUserTimeline]
  · unfold APIX.getLatestReplies
    cases hp : pyInt id <;> simp [configEq]
  · unfold APIX.getRetweets
    cases hp : pyInt id <;> simp [configEq]
  · unfold APIX.searchTweet
    by_cases hc : pyUpper st ∉ searchTypes ∧ pyUpper st ≠ ""
    · rw [if_pos hc]
      simp [configEq]
    · rw [if_neg hc]
      simp [configEq]
  · unfold APIX.getTweetInfo
    cases hp : pyInt id <;> simp [configEq]
  · unfold APIX.getTweetThread
    cases hp : pyInt id <;> simp [configEq]
  · simp [APIX.getUserInfo, configEq]
  · simp [APIX.getUserTimeline, configEq]

/-- C7: two clients with the same `key`, `host` and header mapping give
the same outcome (URL, headers, parameters, or error) on every operation
with the same arguments, whatever their `params` fields hold from earlier
calls: each call's request is a function of its arguments and the
configuration only. -/
theorem C7_history_independence :
    ∀ (c1 c2 : Client), c1.key = c2.key → c1.host = c2.host →
      c1.APIheaders = c2.APIheaders →
      ∀ (id keyword st s : String) (cur tid : Option String),
        ((APIX.getLatestReplies c1 id).2 = (APIX.getLatestReplies c2 id).2) ∧
        ((APIX.getRetweets c1 id).2 = (APIX.getRetweets c2 id).2) ∧
        ((APIX.searchTweet c1 keyword st cur).2 = (APIX.searchTweet c2 keyword st cur).2) ∧
        ((APIX.getTweetInfo c1 id).2 = (APIX.getTweetInfo c2 id).2) ∧
        ((APIX.getTweetThread c1 id cur).2 = (APIX.getTweetThread c2 id cur).2) ∧
        ((APIX.getUserInfo c1 s tid).2 = (APIX.getUserInfo c2 s tid).2) ∧
        ((APIX.getUserTimeline c1 s tid cur).2 = (APIX.getUserTimeline c2 s tid cur).2) := by
  intro c1 c2 hk hh ha id keyword st s cur tid
  refine ⟨?_, ?_, ?_, ?_, ?_, ?_, ?_⟩
  · unfold APIX.getLatestReplies
    cases hp : pyInt id <;> simp [ha]
  · unfold APIX.getRetweets
    cases hp : pyInt id <;> simp [ha]
  · unfold APIX.searchTweet
    by_cases hc : pyUpper st ∉ searchTypes ∧ pyUpper st ≠ ""
    · rw [if_pos hc, if_pos hc]
    · rw [if_neg hc, if_neg hc]
      simp [ha]
  · unfold APIX.getTweetInfo
    cases hp : pyInt id <;> simp [ha]
  · unfold APIX.getTweetThread
    cases hp : pyInt id <;> simp [ha]
  · simp [APIX.getUserInfo, ha]
  · simp [APIX.getUserTimeline, ha]

/-- C7, witness: a client whose `params` field still holds a previous
call's `query` parameter sends, on `getLatestReplies "7"`, exactly the
request a freshly constructed client with the same configuration
sends. -/
theorem C7_witness :
    (APIX.getLatestReplies
        { key := "k", host := "twitter-api45.p.rapidapi.com"
          APIheaders := [("X-RapidAPI-Key", "k"),
            ("X-RapidAPI-Host", "twitter-api45.p.rapidapi.com")]
          params := [("query", "old search")] } "7").2 =
      (APIX.getLatestReplies (APIX.init "k" "twitter-api45.p.rapidapi.com") "7").2 :=
  (C7_history_independence
    { key := "k", host := "twitter-api45.p.rapidapi.com"
      APIheaders := [("X-RapidAPI-Key", "k"),
        ("X-RapidAPI-Host", "twitter-api45.p.rapidapi.com")]
      params := [("query", "old search")] }
    (APIX.init "k" "twitter-api45.p.rapidapi.com")
    rfl rfl rfl "7" "" "" "" none none).1

/-- C8: the id strings the four id-taking operations accept are exactly
those Python's `int` parses: strings with surrounding whitespace, a sign,
or underscore digit-group separators (`" 42 "`, `"+7"`, `"1_000"`) pass
and are sent verbatim in their original non-canonical form, while
`"3.0"` and `""` are rejected. -/
theorem C8_int_parser_acceptance :
    ∀ (c : Client) (id : String) (cur : Option String),
      (pyInt " 42 " = some 42) ∧ (pyInt "+7" = some 7) ∧ (pyInt "1_000" = some 1000) ∧
      (pyInt "3.0" = none) ∧ (pyInt "" = none) ∧
      (isErr (APIX.getLatestReplies c id).2 = (pyInt id).isNone) ∧
      (isErr (APIX.getRetweets c id).2 = (pyInt id).isNone) ∧
      (isErr (APIX.getTweetInfo c id).2 = (pyInt id).isNone) ∧
      (isErr (APIX.getTweetThread c id cur).2 = (pyInt id).isNone) ∧
      ((APIX.getLatestReplies c " 42 ").2 = Except.ok
        { url := "https://twitter-api45.p.rapidapi.com/latest_replies.php"
          headers := c.APIheaders, params := [("id", " 42 ")] }) ∧
      ((APIX.getTweetInfo c "1_000").2 = Except.ok
        { url := "https://twitter-api45.p.rapidapi.com/tweet.php"
          headers := c.APIheaders, params := [("id", "1_000")] }) := by
  intro c id cur
  refine ⟨by decide, by decide, by decide, by decide, by decide, ?_, ?_, ?_, ?_, ?_, ?_⟩
  · unfold APIX.getLatestReplies
    cases hp : pyInt id <;> simp [isErr]
  · unfold APIX.getRetweets
    cases hp : pyInt id <;> simp [isErr]
  · unfold APIX.getTweetInfo
    cases hp : pyInt id <;> simp [isErr]
  · unfold APIX.getTweetThread
    cases hp : pyInt id <;> simp [isErr]
  · simp [APIX.getLatestReplies, (by decide : pyInt " 42 " = some 42)]
  · simp [APIX.getTweetInfo, (by decide : pyInt "1_000" = some 1000)]

/-- C9: whenever an operation raises `InvalidArgument`, the post-call
client state equals the pre-call state — in particular the stored
`params` field is untouched, since the error is raised before the field
is reassigned. -/
theorem C9_error_preserves_state :
    ∀ (c : Client) (id keyword st : String) (cur : Option String),
      (pyInt id = none →
        ((APIX.getLatestReplies c id).1 = c) ∧ ((APIX.getRetweets c id).1 = c) ∧
        ((APIX.getTweetInfo c id).1 = c) ∧ ((APIX.getTweetThread c id cur).1 = c)) ∧
      (pyUpper st ∉ searchTypes → pyUpper st ≠ "" →
        (APIX.searchTweet c keyword st cur).1 = c) := by
  intro c id keyword st cur
  constructor
  · intro hnone
    refine ⟨?_, ?_, ?_, ?_⟩ <;>
      simp [APIX.getLatestReplies, APIX.getRetweets, APIX.getTweetInfo,
        APIX.getTweetThread, hnone]
  · intro h1 h2
    unfold APIX.searchTweet
    rw [if_pos ⟨h1, h2⟩]

/-- C10: `searchTweet` never validates its keyword: whether it fails is
independent of the keyword, every issued request carries the keyword
verbatim as the first (`query`) parameter — the empty keyword included —
and whenever `search_type` passes validation the call succeeds. -/
theorem C10_keyword_unvalidated :
    ∀ (c : Client) (keyword st : String) (cur : Option String),
      (isErr (APIX.searchTweet c keyword st cur).2 =
        isErr (APIX.searchTweet c "" st cur).2) ∧
      (∀ r, (APIX.searchTweet c keyword st cur).2 = Except.ok r →
        r.params.head? = some ("query", keyword)) ∧
      ((pyUpper st ∈ searchTypes ∨ pyUpper st = "") →
        isErr (APIX.searchTweet c keyword st cur).2 = false) := by
  intro c keyword st cur
  refine ⟨?_, ?_, ?_⟩
  · unfold APIX.searchTweet
    by_cases hc : pyUpper st ∉ searchTypes ∧ pyUpper st ≠ ""
    · rw [if_pos hc, if_pos hc]
    · rw [if_neg hc, if_neg hc]
      simp [isErr]
  · intro r h
    unfold APIX.searchTweet at h
    by_cases hc : pyUpper st ∉ searchTypes ∧ pyUpper st ≠ ""
    · rw [if_pos hc] at h
      simp at h
    · rw [if_neg hc] at h
      simp at h
      subst h
      cases cur <;> rfl
  · intro hval
    unfold APIX.searchTweet
    have hc : ¬ (pyUpper st ∉ searchTypes ∧ pyUpper st ≠ "") := by
      rcases hval with hv | hv <;> simp [hv]
    rw [if_neg hc]
    simp [isErr]
